import Mathlib

/-
Verification of the x402 facilitator's error taxonomy and HTTP boundary.

The HTTP boundary under study is `src/x402-rs/src/handlers.rs`, in particular
the `IntoResponse` implementation for `FacilitatorLocalError` (lines 180-232)
and the helper `invalid_schema` (lines 176-178).  The requirement matcher and
timing validator live outside the files at hand, so they are modelled from the
specification (sections 4.1 and 4.2), which gives their contracts verbatim.
-/

namespace X402

/-- Chain account identifier, as carried in responses and errors.  The code's
`MixedAddress` is an opaque address token at this boundary; only its identity
matters for the properties below. -/
abbrev MixedAddress := String

/-- A scheme tag (for example "exact"). -/
abbrev Scheme := String

/-- A network tag (for example "base"). -/
abbrev Network := String

/-- The rejection reasons placed in a `VerifyResponse`, from `x402-rs` types:
`InsufficientFunds`, `InvalidScheme`, `InvalidNetwork`, and a free-form
variant used by the boundary for decoding failures. -/
inductive FacilitatorErrorReason where
  | insufficientFunds
  | invalidScheme
  | invalidNetwork
  | freeForm (s : String)
deriving DecidableEq, Repr

/-- The body of `/verify`: validity flag, best-known payer, and the reason when
invalid.  Mirrors `VerifyResponse` in `x402-rs` types. -/
structure VerifyResponse where
  isValid : Bool
  payer : Option MixedAddress
  invalidReason : Option FacilitatorErrorReason
deriving DecidableEq, Repr

/-- Constructor used by `handlers.rs`: `VerifyResponse::invalid(payer, reason)`
yields an invalid response carrying the payer and the reason. -/
def VerifyResponse.invalid (payer : Option MixedAddress)
    (reason : FacilitatorErrorReason) : VerifyResponse :=
  { isValid := false, payer := payer, invalidReason := some reason }

/-- The error body used for infrastructure faults (`ErrorResponse` in the
`x402-rs` types). -/
structure ErrorResponse where
  error : String
deriving DecidableEq, Repr

/-- The body of an HTTP response produced by the error boundary: either a JSON
`VerifyResponse` or a JSON `ErrorResponse`. -/
inductive ResponseBody where
  | verify (v : VerifyResponse)
  | err (e : ErrorResponse)
deriving DecidableEq, Repr

/-- An HTTP response: status code plus body, the observable outcome of
`into_response`. -/
structure Response where
  status : Nat
  body : ResponseBody
deriving DecidableEq, Repr

/-- The facilitator's local error enum (`FacilitatorLocalError` in
`chain.rs`).  Variant names, and whether the payer slot is optional, are fixed
by the match arms of `handlers.rs` lines 192-230; the remaining per-variant
detail fields (matched there with `..`) are modelled as the expected/actual
tags and detail strings described by the specification's error taxonomy
(section 7) and never influence the boundary. -/
inductive FacilitatorLocalError where
  | SchemeMismatch (payer : Option MixedAddress) (expected actual : Scheme)
  | ReceiverMismatch (payer : MixedAddress) (expected actual : MixedAddress)
  | InvalidSignature (payer : MixedAddress) (detail : String)
  | InvalidTiming (payer : MixedAddress) (detail : String)
  | InsufficientValue (payer : MixedAddress)
  | NetworkMismatch (payer : Option MixedAddress) (expected actual : Network)
  | UnsupportedNetwork (payer : Option MixedAddress)
  | ContractCall (detail : String)
  | InvalidAddress (detail : String)
  | ClockError (detail : String)
  | DecodingError (reason : String)
  | InsufficientFunds (payer : MixedAddress)
deriving DecidableEq, Repr

/-- Helper from `handlers.rs` lines 176-178: an invalid `VerifyResponse` whose
reason is always `InvalidScheme`, whatever failure it is used for. -/
def invalid_schema (payer : Option MixedAddress) : VerifyResponse :=
  VerifyResponse.invalid payer FacilitatorErrorReason.invalidScheme

/-- The fixed 400 response built at `handlers.rs` lines 184-190. -/
def bad_request : Response :=
  { status := 400, body := ResponseBody.err { error := "Invalid request" } }

/-- The `IntoResponse` implementation for `FacilitatorLocalError`
(`handlers.rs` lines 180-232), arm for arm. -/
def into_response : FacilitatorLocalError → Response
  | FacilitatorLocalError.SchemeMismatch payer _ _ =>
      { status := 200, body := ResponseBody.verify (invalid_schema payer) }
  | FacilitatorLocalError.ReceiverMismatch payer _ _ =>
      { status := 200, body := ResponseBody.verify (invalid_schema (some payer)) }
  | FacilitatorLocalError.InvalidSignature payer _ =>
      { status := 200, body := ResponseBody.verify (invalid_schema (some payer)) }
  | FacilitatorLocalError.InvalidTiming payer _ =>
      { status := 200, body := ResponseBody.verify (invalid_schema (some payer)) }
  | FacilitatorLocalError.InsufficientValue payer =>
      { status := 200, body := ResponseBody.verify (invalid_schema (some payer)) }
  | FacilitatorLocalError.NetworkMismatch payer _ _ =>
      { status := 200, body := ResponseBody.verify
          (VerifyResponse.invalid payer FacilitatorErrorReason.invalidNetwork) }
  | FacilitatorLocalError.UnsupportedNetwork payer =>
      { status := 200, body := ResponseBody.verify
          (VerifyResponse.invalid payer FacilitatorErrorReason.invalidNetwork) }
  | FacilitatorLocalError.ContractCall _ => bad_request
  | FacilitatorLocalError.InvalidAddress _ => bad_request
  | FacilitatorLocalError.ClockError _ => bad_request
  | FacilitatorLocalError.DecodingError reason =>
      { status := 200, body := ResponseBody.verify
          (VerifyResponse.invalid none (FacilitatorErrorReason.freeForm reason)) }
  | FacilitatorLocalError.InsufficientFunds payer =>
      { status := 200, body := ResponseBody.verify
          (VerifyResponse.invalid (some payer) FacilitatorErrorReason.insufficientFunds) }

/-- The `invalidReason` visible in a response, when the body is a
`VerifyResponse`. -/
def reasonOf (r : Response) : Option FacilitatorErrorReason :=
  match r.body with
  | ResponseBody.verify v => v.invalidReason
  | ResponseBody.err _ => none

/-- The `payer` visible in a response, when the body is a `VerifyResponse`. -/
def payerOf (r : Response) : Option MixedAddress :=
  match r.body with
  | ResponseBody.verify v => v.payer
  | ResponseBody.err _ => none

/-- The eight business-rule rejection kinds named by the specification
(section 7, first two taxonomy lines). -/
def isBusinessRejection : FacilitatorLocalError → Bool
  | FacilitatorLocalError.SchemeMismatch .. => true
  | FacilitatorLocalError.NetworkMismatch .. => true
  | FacilitatorLocalError.UnsupportedNetwork .. => true
  | FacilitatorLocalError.ReceiverMismatch .. => true
  | FacilitatorLocalError.InvalidSignature .. => true
  | FacilitatorLocalError.InvalidTiming .. => true
  | FacilitatorLocalError.InsufficientValue .. => true
  | FacilitatorLocalError.InsufficientFunds .. => true
  | _ => false

/-- The three infrastructure-fault kinds named by the claims: chain-call
failure, malformed address, unreadable clock. -/
def isInfrastructureFault : FacilitatorLocalError → Bool
  | FacilitatorLocalError.ContractCall .. => true
  | FacilitatorLocalError.InvalidAddress .. => true
  | FacilitatorLocalError.ClockError .. => true
  | _ => false

/-- A response is a structured invalid business response: status 200 with a
`VerifyResponse` body that is invalid and carries a reason. -/
def structuredInvalid (r : Response) : Prop :=
  r.status = 200 ∧
    ∃ v, r.body = ResponseBody.verify v ∧ v.isValid = false ∧ v.invalidReason.isSome = true

/-- An EIP-3009 authorization, per the specification's data model
(section 3): sender, receiver, value, half-open validity window, nonce and
signature.  Amounts and timestamps are exact unsigned integers. -/
structure Authorization where
  from_ : MixedAddress
  to_ : MixedAddress
  value : Nat
  validAfter : Nat
  validBefore : Nat
  nonce : Nat
  signature : List Nat
deriving DecidableEq, Repr

/-- What the client sends, per the specification's data model. -/
structure PaymentPayload where
  scheme : Scheme
  network : Network
  authorization : Authorization
deriving DecidableEq, Repr

/-- What the resource server demands, per the specification's data model. -/
structure PaymentRequirements where
  scheme : Scheme
  network : Network
  asset : MixedAddress
  payTo : MixedAddress
  maxAmountRequired : Nat
deriving DecidableEq, Repr

/-- Modelled from the spec: the Requirement Matcher (section 4.1) is not among
the files at hand; this follows its contract word for word.  Checks run in the
fixed order scheme, network, receiver, value; the first failure wins; a
network the facilitator does not support at all is reported as
`UnsupportedNetwork` instead of `NetworkMismatch`; every failure carries the
best-known payer, `authorization.from`. -/
def matchRequirements (supported : List Network) (payload : PaymentPayload)
    (requirements : PaymentRequirements) : Except FacilitatorLocalError Unit :=
  if payload.scheme = requirements.scheme then
    if payload.network ∈ supported then
      if payload.network = requirements.network then
        if payload.authorization.to_ = requirements.payTo then
          if requirements.maxAmountRequired ≤ payload.authorization.value then
            Except.ok ()
          else
            Except.error (FacilitatorLocalError.InsufficientValue payload.authorization.from_)
        else
          Except.error (FacilitatorLocalError.ReceiverMismatch payload.authorization.from_
            requirements.payTo payload.authorization.to_)
      else
        Except.error (FacilitatorLocalError.NetworkMismatch (some payload.authorization.from_)
          requirements.network payload.network)
    else
      Except.error (FacilitatorLocalError.UnsupportedNetwork (some payload.authorization.from_))
  else
    Except.error (FacilitatorLocalError.SchemeMismatch (some payload.authorization.from_)
      requirements.scheme payload.scheme)

/-- Modelled from the spec: the Timing Validator (section 4.2) is not among
the files at hand; this follows its contract word for word.  Valid iff
`validAfter <= now < validBefore`; a failure is `InvalidTiming` carrying the
best-known payer. -/
def check_timing (a : Authorization) (now : Nat) : Except FacilitatorLocalError Unit :=
  if a.validAfter ≤ now ∧ now < a.validBefore then
    Except.ok ()
  else
    Except.error (FacilitatorLocalError.InvalidTiming a.from_ "outside validity window")

/-- C9: the error-to-HTTP-response mapping is total over every
`FacilitatorLocalError` variant and produces only two possible status codes:
every variant maps either to status 200 with a `VerifyResponse` body or to
status 400 with an `ErrorResponse` body. -/
theorem c9_response_totality (e : FacilitatorLocalError) :
    ((into_response e).status = 200 ∧
        ∃ v, (into_response e).body = ResponseBody.verify v) ∨
    ((into_response e).status = 400 ∧
        ∃ er, (into_response e).body = ResponseBody.err er) := by
  cases e <;>
    simp [into_response, bad_request, invalid_schema, VerifyResponse.invalid]

/-- C10: any two infrastructure-fault errors, whatever their inner payloads,
produce the identical HTTP response: status 400 with the fixed body string
"Invalid request"; the fault's internal detail never reaches the caller. -/
theorem c10_infra_uniform_response :
    (∀ s, into_response (FacilitatorLocalError.ContractCall s) = bad_request) ∧
    (∀ s, into_response (FacilitatorLocalError.InvalidAddress s) = bad_request) ∧
    (∀ s, into_response (FacilitatorLocalError.ClockError s) = bad_request) ∧
    bad_request =
      { status := 400, body := ResponseBody.err { error := "Invalid request" } } :=
  ⟨fun _ => rfl, fun _ => rfl, fun _ => rfl, rfl⟩

/-- C3: every business-rule rejection of kind `ReceiverMismatch`,
`InvalidSignature`, `InvalidTiming`, `InsufficientValue` or
`InsufficientFunds` produces a boundary response carrying the payer address
taken from the error variant, wrapped in `some`. -/
theorem c3_payer_carried :
    (∀ (payer expected actual : MixedAddress),
        payerOf (into_response
          (FacilitatorLocalError.ReceiverMismatch payer expected actual)) = some payer) ∧
    (∀ payer detail,
        payerOf (into_response
          (FacilitatorLocalError.InvalidSignature payer detail)) = some payer) ∧
    (∀ payer detail,
        payerOf (into_response
          (FacilitatorLocalError.InvalidTiming payer detail)) = some payer) ∧
    (∀ payer,
        payerOf (into_response
          (FacilitatorLocalError.InsufficientValue payer)) = some payer) ∧
    (∀ payer,
        payerOf (into_response
          (FacilitatorLocalError.InsufficientFunds payer)) = some payer) :=
  ⟨fun _ _ _ => rfl, fun _ _ => rfl, fun _ _ => rfl, fun _ => rfl, fun _ => rfl⟩

/-- C2 counterexample: a receiver-mismatch rejection and an invalid-timing
rejection are reported with the same `invalidReason`, which moreover equals
the reason used for a scheme mismatch (`InvalidScheme`): distinct failures
are collapsed into a single reason, refuting the claim. -/
theorem c2_distinct_reasons_counterexample :
    reasonOf (into_response
        (FacilitatorLocalError.ReceiverMismatch "0xA" "0xB" "0xC")) =
      reasonOf (into_response
        (FacilitatorLocalError.InvalidTiming "0xA" "expired")) ∧
    reasonOf (into_response
        (FacilitatorLocalError.ReceiverMismatch "0xA" "0xB" "0xC")) =
      reasonOf (into_response
        (FacilitatorLocalError.SchemeMismatch (some "0xA") "exact" "permit")) ∧
    reasonOf (into_response
        (FacilitatorLocalError.ReceiverMismatch "0xA" "0xB" "0xC")) =
      some FacilitatorErrorReason.invalidScheme :=
  ⟨rfl, rfl, rfl⟩

/-- C2 amended: every verify business-rule rejection of kind scheme mismatch,
receiver mismatch, invalid signature, invalid timing or insufficient value is
reported with the one collapsed reason `InvalidScheme` (via `invalid_schema`),
not with a per-kind distinct reason. -/
theorem c2_collapsed_reason :
    (∀ payer expected actual, reasonOf (into_response
        (FacilitatorLocalError.SchemeMismatch payer expected actual)) =
          some FacilitatorErrorReason.invalidScheme) ∧
    (∀ payer expected actual, reasonOf (into_response
        (FacilitatorLocalError.ReceiverMismatch payer expected actual)) =
          some FacilitatorErrorReason.invalidScheme) ∧
    (∀ payer detail, reasonOf (into_response
        (FacilitatorLocalError.InvalidSignature payer detail)) =
          some FacilitatorErrorReason.invalidScheme) ∧
    (∀ payer detail, reasonOf (into_response
        (FacilitatorLocalError.InvalidTiming payer detail)) =
          some FacilitatorErrorReason.invalidScheme) ∧
    (∀ payer, reasonOf (into_response
        (FacilitatorLocalError.InsufficientValue payer)) =
          some FacilitatorErrorReason.invalidScheme) :=
  ⟨fun _ _ _ => rfl, fun _ _ _ => rfl, fun _ _ => rfl, fun _ _ => rfl, fun _ => rfl⟩

/-- C4 counterexample: a `DecodingError` is answered with HTTP status 200 and
a structured invalid `VerifyResponse` carrying a free-form reason, not with a
non-200 error status, refuting the claim that both malformed-input kinds are
rejected as errors. -/
theorem c4_decoding_counterexample :
    (into_response (FacilitatorLocalError.DecodingError "bad json")).status = 200 ∧
    (into_response (FacilitatorLocalError.DecodingError "bad json")).body =
      ResponseBody.verify (VerifyResponse.invalid none
        (FacilitatorErrorReason.freeForm "bad json")) :=
  ⟨rfl, rfl⟩

/-- C4 amended: `InvalidAddress` is treated as an infrastructure fault and
rejected with the fixed 400 error response, while `DecodingError` is reported
as a 200 structured invalid business response whose reason is the free-form
decoding message and whose payer is `none`. -/
theorem c4_infra_vs_decoding :
    (∀ s, into_response (FacilitatorLocalError.InvalidAddress s) =
        { status := 400, body := ResponseBody.err { error := "Invalid request" } }) ∧
    (∀ s, (into_response (FacilitatorLocalError.DecodingError s)).status = 200 ∧
        (into_response (FacilitatorLocalError.DecodingError s)).body =
          ResponseBody.verify (VerifyResponse.invalid none
            (FacilitatorErrorReason.freeForm s))) :=
  ⟨fun _ => rfl, fun _ => ⟨rfl, rfl⟩⟩

/-- C5 counterexample: a `NetworkMismatch` and an `UnsupportedNetwork` error
with the same payer produce identical boundary responses, both with reason
`InvalidNetwork`: the two cases are not distinguishable in the outcome. -/
theorem c5_network_reason_counterexample :
    into_response (FacilitatorLocalError.NetworkMismatch (some "0xA") "base" "avalanche") =
      into_response (FacilitatorLocalError.UnsupportedNetwork (some "0xA")) ∧
    reasonOf (into_response
        (FacilitatorLocalError.NetworkMismatch (some "0xA") "base" "avalanche")) =
      some FacilitatorErrorReason.invalidNetwork :=
  ⟨rfl, rfl⟩

/-- C5 amended: the matcher reports a differing network as the error
`NetworkMismatch` and an unsupported network as the error
`UnsupportedNetwork`, so the two cases are distinguishable error variants;
the HTTP boundary, however, maps both variants to the same reason
`InvalidNetwork`, so the boundary outcomes are not distinguishable. -/
theorem c5_network_reporting (supported : List Network) (p : PaymentPayload)
    (r : PaymentRequirements) (hs : p.scheme = r.scheme) :
    (p.network ∈ supported → p.network ≠ r.network →
      matchRequirements supported p r =
        Except.error (FacilitatorLocalError.NetworkMismatch
          (some p.authorization.from_) r.network p.network)) ∧
    (p.network ∉ supported →
      matchRequirements supported p r =
        Except.error (FacilitatorLocalError.UnsupportedNetwork
          (some p.authorization.from_))) ∧
    (∀ payer expected actual,
      reasonOf (into_response
          (FacilitatorLocalError.NetworkMismatch payer expected actual)) =
        reasonOf (into_response (FacilitatorLocalError.UnsupportedNetwork payer)) ∧
      reasonOf (into_response (FacilitatorLocalError.UnsupportedNetwork payer)) =
        some FacilitatorErrorReason.invalidNetwork) := by
  refine ⟨?_, ?_, fun _ _ _ => ⟨rfl, rfl⟩⟩
  · intro hmem hne
    unfold matchRequirements
    rw [if_pos hs, if_pos hmem, if_neg hne]
  · intro hmem
    unfold matchRequirements
    rw [if_pos hs, if_neg hmem]

/-- C5 witness: concrete mismatching and unsupported networks exercise both
matcher branches and the boundary collapse. -/
theorem c5_network_reporting_witness :
    matchRequirements ["base"]
      ⟨"exact", "base", ⟨"0xA", "0xB", 1000, 0, 10, 0, []⟩⟩
      ⟨"exact", "avalanche", "0xT", "0xB", 1000⟩ =
      Except.error (FacilitatorLocalError.NetworkMismatch (some "0xA")
        "avalanche" "base") ∧
    matchRequirements ["base"]
      ⟨"exact", "solana", ⟨"0xA", "0xB", 1000, 0, 10, 0, []⟩⟩
      ⟨"exact", "solana", "0xT", "0xB", 1000⟩ =
      Except.error (FacilitatorLocalError.UnsupportedNetwork (some "0xA")) :=
  ⟨(c5_network_reporting ["base"] _ _ rfl).1 (by decide) (by decide),
   (c5_network_reporting ["base"] _ _ rfl).2.1 (by decide)⟩

/-- C1: every business-rule rejection (the eight kinds) is answered with HTTP
status 200 and a structured invalid business response, while every
infrastructure fault (`ContractCall`, `InvalidAddress`, `ClockError`) is
answered with a 4xx error status. -/
theorem c1_boundary_status (e : FacilitatorLocalError) :
    (isBusinessRejection e = true → structuredInvalid (into_response e)) ∧
    (isInfrastructureFault e = true →
      400 ≤ (into_response e).status ∧ (into_response e).status < 500) := by
  cases e <;>
    simp [isBusinessRejection, isInfrastructureFault, structuredInvalid,
      into_response, bad_request, invalid_schema, VerifyResponse.invalid]

/-- C1 witness: a concrete business rejection gets a structured invalid 200,
and a concrete infrastructure fault gets a 4xx status. -/
theorem c1_boundary_status_witness :
    structuredInvalid (into_response (FacilitatorLocalError.InsufficientFunds "0xA")) ∧
    (400 ≤ (into_response (FacilitatorLocalError.ContractCall "rpc timeout")).status ∧
      (into_response (FacilitatorLocalError.ContractCall "rpc timeout")).status < 500) :=
  ⟨(c1_boundary_status (FacilitatorLocalError.InsufficientFunds "0xA")).1 rfl,
   (c1_boundary_status (FacilitatorLocalError.ContractCall "rpc timeout")).2 rfl⟩

/-- C6: `check_timing` passes exactly on the half-open window
`validAfter <= now < validBefore`; `now = validBefore` fails (exclusive upper
bound) and `now = validAfter` passes whenever the window is nonempty
(inclusive lower bound). -/
theorem c6_check_timing_window :
    (∀ (a : Authorization) (now : Nat),
        check_timing a now = Except.ok () ↔
          a.validAfter ≤ now ∧ now < a.validBefore) ∧
    (∀ a : Authorization, check_timing a a.validBefore ≠ Except.ok ()) ∧
    (∀ a : Authorization, a.validAfter < a.validBefore →
        check_timing a a.validAfter = Except.ok ()) := by
  refine ⟨?_, ?_, ?_⟩
  · intro a now
    by_cases h : a.validAfter ≤ now ∧ now < a.validBefore
    · simp [check_timing, h]
    · simp [check_timing, h]
  · intro a
    simp [check_timing]
  · intro a h
    simp [check_timing, h]

/-- C6 witness: a concrete authorization with window `[3, 10)` passes exactly
at its lower bound. -/
theorem c6_check_timing_window_witness :
    check_timing ⟨"0xA", "0xB", 1000, 3, 10, 0, []⟩ 3 = Except.ok () :=
  c6_check_timing_window.2.2 _ (by decide)

/-- C7: once scheme, network and receiver agree, the matcher succeeds exactly
when `authorization.value >= requirements.maxAmountRequired` (inclusive
boundary), and any strictly smaller value fails with `InsufficientValue`. -/
theorem c7_value_sufficiency (supported : List Network) (p : PaymentPayload)
    (r : PaymentRequirements) (hs : p.scheme = r.scheme)
    (hmem : p.network ∈ supported) (hn : p.network = r.network)
    (hto : p.authorization.to_ = r.payTo) :
    (matchRequirements supported p r = Except.ok () ↔
      r.maxAmountRequired ≤ p.authorization.value) ∧
    (p.authorization.value < r.maxAmountRequired →
      matchRequirements supported p r =
        Except.error (FacilitatorLocalError.InsufficientValue
          p.authorization.from_)) := by
  have hbase : matchRequirements supported p r =
      if r.maxAmountRequired ≤ p.authorization.value then Except.ok ()
      else Except.error (FacilitatorLocalError.InsufficientValue
        p.authorization.from_) := by
    unfold matchRequirements
    rw [if_pos hs, if_pos hmem, if_pos hn, if_pos hto]
  refine ⟨?_, ?_⟩
  · rw [hbase]
    by_cases hv : r.maxAmountRequired ≤ p.authorization.value
    · simp [hv]
    · simp [hv]
  · intro hv
    rw [hbase, if_neg (Nat.not_le.mpr hv)]

/-- C7 witness: value equal to `maxAmountRequired` (both 1000) passes the
matcher; the boundary is inclusive. -/
theorem c7_value_sufficiency_witness :
    matchRequirements ["base"]
      ⟨"exact", "base", ⟨"0xA", "0xB", 1000, 0, 10, 0, []⟩⟩
      ⟨"exact", "base", "0xT", "0xB", 1000⟩ = Except.ok () :=
  (c7_value_sufficiency ["base"] _ _ rfl (by decide) rfl rfl).1.mpr (by decide)

/-- C8: the matcher runs its checks in the fixed order scheme, network,
receiver, value, and the first failure wins: differing schemes always yield
`SchemeMismatch` whatever the other fields hold, and each later check only
decides the outcome when all earlier ones pass. -/
theorem c8_scheme_first_order :
    (∀ (supported : List Network) (p : PaymentPayload) (r : PaymentRequirements),
      p.scheme ≠ r.scheme →
      matchRequirements supported p r =
        Except.error (FacilitatorLocalError.SchemeMismatch
          (some p.authorization.from_) r.scheme p.scheme)) ∧
    (∀ (supported : List Network) (p : PaymentPayload) (r : PaymentRequirements),
      p.scheme = r.scheme → p.network ∉ supported →
      matchRequirements supported p r =
        Except.error (FacilitatorLocalError.UnsupportedNetwork
          (some p.authorization.from_))) ∧
    (∀ (supported : List Network) (p : PaymentPayload) (r : PaymentRequirements),
      p.scheme = r.scheme → p.network ∈ supported → p.network ≠ r.network →
      matchRequirements supported p r =
        Except.error (FacilitatorLocalError.NetworkMismatch
          (some p.authorization.from_) r.network p.network)) ∧
    (∀ (supported : List Network) (p : PaymentPayload) (r : PaymentRequirements),
      p.scheme = r.scheme → p.network ∈ supported → p.network = r.network →
      p.authorization.to_ ≠ r.payTo →
      matchRequirements supported p r =
        Except.error (FacilitatorLocalError.ReceiverMismatch
          p.authorization.from_ r.payTo p.authorization.to_)) ∧
    (∀ (supported : List Network) (p : PaymentPayload) (r : PaymentRequirements),
      p.scheme = r.scheme → p.network ∈ supported → p.network = r.network →
      p.authorization.to_ = r.payTo →
      p.authorization.value < r.maxAmountRequired →
      matchRequirements supported p r =
        Except.error (FacilitatorLocalError.InsufficientValue
          p.authorization.from_)) := by
  refine ⟨?_, ?_, ?_, ?_, ?_⟩
  · intro supported p r h1
    unfold matchRequirements
    rw [if_neg h1]
  · intro supported p r h1 h2
    unfold matchRequirements
    rw [if_pos h1, if_neg h2]
  · intro supported p r h1 h2 h3
    unfold matchRequirements
    rw [if_pos h1, if_pos h2, if_neg h3]
  · intro supported p r h1 h2 h3 h4
    unfold matchRequirements
    rw [if_pos h1, if_pos h2, if_pos h3, if_neg h4]
  · intro supported p r h1 h2 h3 h4 h5
    unfold matchRequirements
    rw [if_pos h1, if_pos h2, if_pos h3, if_pos h4, if_neg (Nat.not_le.mpr h5)]

/-- C8 witness: with every field but the scheme matching, the matcher fails
with `SchemeMismatch`; the other ordering conjuncts are exercised at concrete
inputs too. -/
theorem c8_scheme_first_order_witness :
    matchRequirements ["base"]
      ⟨"permit", "base", ⟨"0xA", "0xB", 1000, 0, 10, 0, []⟩⟩
      ⟨"exact", "base", "0xT", "0xB", 1000⟩ =
      Except.error (FacilitatorLocalError.SchemeMismatch (some "0xA")
        "exact" "permit") ∧
    matchRequirements ["base"]
      ⟨"exact", "base", ⟨"0xA", "0xC", 1000, 0, 10, 0, []⟩⟩
      ⟨"exact", "base", "0xT", "0xB", 1000⟩ =
      Except.error (FacilitatorLocalError.ReceiverMismatch "0xA" "0xB" "0xC") ∧
    matchRequirements ["base"]
      ⟨"exact", "base", ⟨"0xA", "0xB", 999, 0, 10, 0, []⟩⟩
      ⟨"exact", "base", "0xT", "0xB", 1000⟩ =
      Except.error (FacilitatorLocalError.InsufficientValue "0xA") :=
  ⟨c8_scheme_first_order.1 ["base"] _ _ (by decide),
   c8_scheme_first_order.2.2.2.1 ["base"] _ _ rfl (by decide) rfl (by decide),
   c8_scheme_first_order.2.2.2.2 ["base"] _ _ rfl (by decide) rfl rfl (by decide)⟩

end X402
